import Mathlib

/-!
Shallow embedding of the har-capture repository (Go) in Lean 4, together with
theorems settling the frozen claims about it.

Modelling conventions:
* Go `float64` millisecond offsets are modelled as `Rat` (the claims are about
  exact arithmetic relations between the fields, not rounding).
* Go maps are modelled as functions into `Option` (`Function.update` for
  assignment and deletion); a Go map traversed by `range` is modelled as an
  association list, one fixed traversal order among those Go permits.
* Channel/deadline races are resolved by explicit booleans recording which
  side of a `select` fired first; fallible Go functions return `Except` or
  pair their result with an optional error, mirroring `(T, error)`.
-/

namespace HarCapture

/-! ## Archive assembler: timing reconstruction (internal/capture/har.go) -/

/-- Chrome `network.ResourceTiming`: millisecond offsets relative to
`requestTime`; a negative value means the phase did not occur. Only the fields
read by har.go are modelled. -/
structure ResourceTiming where
  dnsStart : Rat
  dnsEnd : Rat
  connectStart : Rat
  connectEnd : Rat
  sslStart : Rat
  sslEnd : Rat
  sendStart : Rat
  sendEnd : Rat
  receiveHeadersStart : Rat
  receiveHeadersEnd : Rat
  deriving Repr, DecidableEq

/-- `har.Timings`: one duration per phase, `-1` marking an absent phase. -/
structure Timings where
  blocked : Rat
  dns : Rat
  connect : Rat
  ssl : Rat
  send : Rat
  wait : Rat
  receive : Rat
  deriving Repr, DecidableEq

/-- `phaseOrBlocked(start, end)` from har.go: `-1` when either endpoint is
negative, otherwise `end - start`. -/
def phaseOrBlocked (s e : Rat) : Rat :=
  if s < 0 ∨ e < 0 then -1 else e - s

/-- `buildTimings` from har.go: a nil timing yields send/wait/receive `-1`
(the zero value of the remaining Go struct fields is 0); otherwise each phase
is reconstructed by `phaseOrBlocked` and the wait phase is
`receiveHeadersEnd - sendEnd` guarded by both endpoints being non-negative.
Blocked and receive are always `-1`. -/
def buildTimings (t : Option ResourceTiming) : Timings :=
  match t with
  | none => { blocked := 0, dns := 0, connect := 0, ssl := 0
              send := -1, wait := -1, receive := -1 }
  | some t =>
      { blocked := -1
        dns := phaseOrBlocked t.dnsStart t.dnsEnd
        connect := phaseOrBlocked t.connectStart t.connectEnd
        ssl := phaseOrBlocked t.sslStart t.sslEnd
        send := phaseOrBlocked t.sendStart t.sendEnd
        wait := if 0 ≤ t.sendEnd ∧ 0 ≤ t.receiveHeadersEnd
                then t.receiveHeadersEnd - t.sendEnd else -1
        receive := -1 }

/-- `totalTime` from har.go: fold over `[Blocked, DNS, Connect, Send, Wait,
Receive]` (note: `Ssl` is not in the list) adding the strictly positive
values. -/
def totalTime (t : Timings) : Rat :=
  List.foldl (fun total v => if 0 < v then total + v else total) 0
    [t.blocked, t.dns, t.connect, t.send, t.wait, t.receive]

/-- Fold adding exactly the non-negative values of a list. -/
def nonnegSum (l : List Rat) : Rat :=
  List.foldl (fun total v => if 0 ≤ v then total + v else total) 0 l

/-- Transcription of the claim/spec sentence "Total entry time = sum of all
non-negative phase durations", taking the phase durations of an entry to be
exactly those the spec names: DNS, connect, SSL, send and wait. Used only to
compare against `totalTime`. -/
def specTotalTime (t : Timings) : Rat :=
  nonnegSum [t.dns, t.connect, t.ssl, t.send, t.wait]

/-! ## Archive assembler: headers (internal/capture/har.go) -/

/-- A value of Go's `network.Headers` map (`map[string]any`): in practice a
single string or a slice of strings, as distinguished by `headersToHAR`. -/
inductive HeaderVal where
  | str (s : String)
  | strs (l : List String)
  deriving Repr, DecidableEq

/-- `fmt.Sprint` applied to a header value: a string prints as itself, a
string slice prints as its elements space-separated inside brackets. -/
def sprintVal : HeaderVal → String
  | .str s => s
  | .strs l => "[" ++ String.intercalate " " l ++ "]"

/-- Go `network.Headers`, an association list standing in for the map with a
fixed traversal order. -/
abbrev Headers := List (String × HeaderVal)

/-- `redirectURL` from har.go: scan the header map for a key equal to
`"Location"` or `"location"` and return the printed value, else `""`. -/
def redirectURL (headers : Headers) : String :=
  match List.find? (fun p => p.1 = "Location" ∨ p.1 = "location") headers with
  | some p => sprintVal p.2
  | none => ""

/-- `har.NameValuePair`. -/
structure NameValuePair where
  name : String
  value : String
  deriving Repr, DecidableEq

/-- `headersToHAR` from har.go: expand a slice-valued header into one pair per
element, any other value into a single printed pair. -/
def headersToHAR (headers : Headers) : List NameValuePair :=
  headers.flatMap fun p =>
    match p.2 with
    | .strs arr => arr.map fun v => { name := p.1, value := v }
    | .str s => [{ name := p.1, value := s }]

/-! ## Correlator (internal/capture/events.go) -/

/-- `pendingRequest`: the request side awaiting its response; `requestID` is
the correlation key. Wall-clock times are opaque naturals. -/
structure PendingRequest where
  requestID : String
  method : String
  url : String
  headers : Headers
  wallTime : Nat
  resourceType : String
  pageRef : String

/-- The fields of `network.EventResponseReceived` read by the package. -/
structure ResponseEvent where
  requestID : String
  status : Int
  statusText : String
  protocol : String
  headers : Headers
  mimeType : String
  timing : Option ResourceTiming

/-- `completedEntry`: a correlated request/response pair. -/
structure CompletedEntry where
  request : PendingRequest
  response : ResponseEvent

/-- The `pending` map of `requestStore`, modelled as a function from request
identifiers to an optional pending request. -/
abbrev RequestStore := String → Option PendingRequest

/-- `requestStore.addRequest`: map assignment, overwriting any stale entry
under the same identifier. -/
def addRequest (s : RequestStore) (r : PendingRequest) : RequestStore :=
  Function.update s r.requestID (some r)

/-- `requestStore.correlate`: look up the pending request for the response's
identifier; on a hit delete it and return the completed entry, on a miss
return no entry and leave the map as it was. -/
def correlate (s : RequestStore) (ev : ResponseEvent) :
    Option CompletedEntry × RequestStore :=
  match s ev.requestID with
  | none => (none, s)
  | some req => (some { request := req, response := ev },
                 Function.update s ev.requestID none)

/-! ## Event collector (collector.go) -/

/-- `har.Page` as assembled by `onRequest`. -/
structure Page where
  id : String
  startedDateTime : Nat
  title : String

/-- The two event kinds sent over the collector's `resultCh`. -/
inductive CollEvent where
  | page (p : Page)
  | entry (e : CompletedEntry)

/-- `collector.accumulate`: route an event into the pages or entries slice. -/
def accumulate (acc : List Page × List CompletedEntry) (d : CollEvent) :
    List Page × List CompletedEntry :=
  match d with
  | .page p => (acc.1 ++ [p], acc.2)
  | .entry e => (acc.1, acc.2 ++ [e])

/-- The drain loop of `collector.wait`: consume every buffered event in FIFO
order through `accumulate`. -/
def drainAll (buf : List CollEvent) : List Page × List CompletedEntry :=
  buf.foldl accumulate ([], [])

/-- `collector.wait`: `doneFirst` records which arm of the `select` fired
(`true` when `markDone`'s channel close won the race against the deadline);
the deadline arm sets `timedOut`. Either way the buffered events are drained
and returned. -/
def collectorWait (doneFirst : Bool) (buf : List CollEvent) :
    List Page × List CompletedEntry × Bool :=
  let r := drainAll buf
  (r.1, r.2, !doneFirst)

/-- `onceCloser`: `done` is the guard flag, `chClosed` records whether
`close(ch)` has been executed on the underlying channel. -/
structure OnceCloser where
  done : Bool
  chClosed : Bool

/-- `close(ch)` on a Go channel: panics (modelled as an error) when the
channel is already closed. -/
def closeChan (chClosed : Bool) : Except String Bool :=
  if chClosed then .error "close of closed channel" else .ok true

/-- `onceCloser.close` (the body of `collector.markDone`): a no-op when
`done` is already set, otherwise set it and close the channel. -/
def OnceCloser.close (o : OnceCloser) : Except String OnceCloser :=
  if o.done then .ok o
  else
    match closeChan o.chClosed with
    | .error e => .error e
    | .ok closed => .ok { done := true, chClosed := closed }

/-- The `onceCloser` made by `newCollector`: channel open, flag unset. -/
def newOnceCloser : OnceCloser := { done := false, chClosed := false }

/-! ## Screenshot scheduler (capture.go) -/

/-- `Screenshot`: stage tag, capture timestamp, raw PNG bytes. -/
structure Screenshot where
  stage : String
  capturedAt : Nat
  png : List Nat
  deriving Repr, DecidableEq

/-- `lifecycleOrder`: the canonical stage order used for sorting. A Go map
lookup of a missing key yields the zero value 0. -/
def lifecycleOrder (stage : String) : Nat :=
  if stage = "load" then 0
  else if stage = "firstContentfulPaint" then 1
  else if stage = "networkIdle" then 2
  else 0

/-- Insert one screenshot into a list already sorted by `lifecycleOrder`. -/
def insertShot (s : Screenshot) : List Screenshot → List Screenshot
  | [] => [s]
  | t :: ts =>
      if lifecycleOrder s.stage ≤ lifecycleOrder t.stage then s :: t :: ts
      else t :: insertShot s ts

/-- The sort performed by `screenshotCollector.wait` (`sort.Slice` on
`lifecycleOrder`), modelled as insertion sort: any sorted permutation is an
admissible outcome of the unstable Go sort. -/
def sortShots (l : List Screenshot) : List Screenshot :=
  l.foldr insertShot []

/-- `screenshotCollector.wait`: join every spawned capture (their completed
results arrive in `results`, in completion order) and return them sorted into
canonical lifecycle order. -/
def scWait (results : List Screenshot) : List Screenshot :=
  sortShots results

/-! ## Capture session (capture.go) -/

/-- `Options` for a capture run; durations in milliseconds. -/
structure Options where
  url : String
  navigationTimeout : Nat
  totalTimeout : Nat
  browserVersion : String
  screenshots : Bool
  viewportWidth : Int
  viewportHeight : Int

/-- The viewport normalisation block of `Capture`: when either dimension is
zero, both are reset to the 1920x1080 defaults. -/
def normalizeViewport (w h : Int) : Int × Int :=
  if w = 0 ∨ h = 0 then (1920, 1080) else (w, h)

/-- A Go `error` as observed through `errors.Is`: a context deadline expiry,
a context cancellation, or any other failure carrying a message. -/
inductive GoError where
  | deadlineExceeded
  | canceled
  | other (msg : String)
  deriving Repr, DecidableEq

/-- `error.Error()` for the modelled errors. -/
def errMessage : GoError → String
  | .deadlineExceeded => "context deadline exceeded"
  | .canceled => "context canceled"
  | .other msg => msg

/-- `isTimeoutError`: true for `context.DeadlineExceeded` and
`context.Canceled`. -/
def isTimeoutErr (e : GoError) : Bool :=
  e = GoError.deadlineExceeded || e = GoError.canceled

/-- `har.Creator`. -/
structure Creator where
  name : String
  version : String

/-- `har.Entry` (the fields buildEntry populates). -/
structure Entry where
  pageref : String
  startedDateTime : Nat
  method : String
  url : String
  httpVersion : String
  requestHeaders : List NameValuePair
  status : Int
  statusText : String
  responseHeaders : List NameValuePair
  mimeType : String
  redirect : String
  timings : Timings
  time : Rat

/-- `har.HAR` (log fields populated by `assembleHAR`). -/
structure HARDoc where
  version : String
  browser : Creator
  creator : Creator
  pages : List Page
  entries : List Entry

/-- `buildEntry` from har.go: copy method/URL/protocol/status, expand both
header maps, reconstruct timings and total them. -/
def buildEntry (e : CompletedEntry) : Entry :=
  let ts := buildTimings e.response.timing
  { pageref := e.request.pageRef
    startedDateTime := e.request.wallTime
    method := e.request.method
    url := e.request.url
    httpVersion := e.response.protocol
    requestHeaders := headersToHAR e.request.headers
    status := e.response.status
    statusText := e.response.statusText
    responseHeaders := headersToHAR e.response.headers
    mimeType := e.response.mimeType
    redirect := redirectURL e.response.headers
    timings := ts
    time := totalTime ts }

/-- `assembleHAR` from har.go. -/
def assembleHAR (pages : List Page) (entries : List CompletedEntry)
    (browserVersion : String) : HARDoc :=
  { version := "1.2"
    browser := { name := "Google Chrome", version := browserVersion }
    creator := { name := "har-capture", version := "0.1.0" }
    pages := pages
    entries := entries.map buildEntry }

/-- `extractTTFB`: the first document-type entry decides; returns the
receive-headers-start offset converted to nanoseconds (`time.Duration`), or 0
when the document response or its timing is unavailable. -/
def extractTTFB (entries : List CompletedEntry) : Rat :=
  match List.find? (fun e => e.request.resourceType = "Document") entries with
  | none => 0
  | some e =>
      match e.response.timing with
      | none => 0
      | some t => if t.receiveHeadersStart < 0 then 0
                  else t.receiveHeadersStart * 1000000

/-- `Result` of a capture run. -/
structure CaptureResult where
  har : HARDoc
  ttfb : Rat
  screenshots : List Screenshot
  timedOut : Bool

/-- The environment a `Capture` run observes from the browser: the outcome of
the navigation command, which arm of the collector's `select` fired first,
the events buffered on the collector's channel, the screenshots completed by
the listener-spawned captures, and the result of the fallback `networkIdle`
capture fired after a cutoff (`none` when it fails and is swallowed). -/
structure CaptureEnv where
  navResult : Option GoError
  doneFirst : Bool
  buffer : List CollEvent
  shotResults : List Screenshot
  fallbackShot : Option Screenshot

/-- `Capture` from capture.go: validate the URL, normalise options, navigate
(a timeout or cancellation is a graceful cutoff, any other failure aborts),
wait on the collector under the total deadline, fire a fallback screenshot
when cut off, join the screenshot scheduler and assemble the result. -/
def Capture (opts : Options) (env : CaptureEnv) : Except String CaptureResult :=
  if opts.url = "" then .error "capture: URL must not be empty"
  else
    let browserVersion := if opts.browserVersion = "" then "unknown"
                          else opts.browserVersion
    let _viewport := normalizeViewport opts.viewportWidth opts.viewportHeight
    let navStep : Except String Bool :=
      match env.navResult with
      | none => .ok false
      | some e =>
          if !isTimeoutErr e then
            .error ("capture: navigation failed: " ++ errMessage e)
          else .ok true
    match navStep with
    | .error m => .error m
    | .ok navTimedOut =>
        let w := collectorWait env.doneFirst env.buffer
        let timedOut := navTimedOut || w.2.2
        let shots := env.shotResults ++
          (if opts.screenshots && timedOut then env.fallbackShot.toList else [])
        .ok { har := assembleHAR w.1 w.2.1 browserVersion
              ttfb := extractTTFB w.2.1
              screenshots := scWait shots
              timedOut := timedOut }

/-- The `TimedOut` field of a successful capture, `none` on error. -/
def captureTimedOutFlag (opts : Options) (env : CaptureEnv) : Option Bool :=
  match Capture opts env with
  | .ok r => some r.timedOut
  | .error _ => none

/-- The HAR document of a successful capture, `none` on error. -/
def captureHARDoc (opts : Options) (env : CaptureEnv) : Option HARDoc :=
  match Capture opts env with
  | .ok r => some r.har
  | .error _ => none

/-! ## Operation store (operation package) -/

/-- `Status`: lifecycle state of an async capture operation. -/
inductive Status where
  | pending
  | running
  | complete
  | failed
  deriving Repr, DecidableEq

/-- `Artefact`: a named upload result with a signed URL and expiry. -/
structure Artefact where
  name : String
  signedURL : String
  expiresAt : Nat
  deriving Repr, DecidableEq

/-- `Operation`: one async capture job. Timestamps are opaque naturals;
`ttfb` is a `time.Duration` in nanoseconds. -/
structure Operation where
  id : String
  status : Status
  url : String
  createdAt : Nat
  updatedAt : Nat
  ttfb : Rat
  timedOut : Bool
  artefacts : List Artefact
  errMsg : String

/-- `MemoryStore`: the `ops` map, modelled as a function from identifiers to
an optional operation. -/
abbrev MemStore := String → Option Operation

/-- `MemoryStore.Get`: return a copy of the stored operation, or a
"not found" error. -/
def storeGet (s : MemStore) (id : String) : Except String Operation :=
  match s id with
  | none => .error ("operation \"" ++ id ++ "\" not found")
  | some op => .ok op

/-- `MemoryStore.update`: look up the operation, fail with "not found" when
absent; otherwise apply the mutation and refresh `UpdatedAt` to the current
time `now`. The Go method mutates in place; here the (possibly unchanged)
map is returned alongside the optional error. -/
def storeUpdate (s : MemStore) (id : String) (now : Nat)
    (fn : Operation → Operation) : Option String × MemStore :=
  match s id with
  | none => (some ("operation \"" ++ id ++ "\" not found"), s)
  | some op =>
      (none, Function.update s id (some { fn op with updatedAt := now }))

/-- `MemoryStore.MarkRunning`. -/
def markRunning (s : MemStore) (id : String) (now : Nat) :
    Option String × MemStore :=
  storeUpdate s id now fun op => { op with status := .running }

/-- `MemoryStore.MarkComplete`. -/
def markComplete (s : MemStore) (id : String) (now : Nat) (ttfb : Rat)
    (timedOut : Bool) (artefacts : List Artefact) : Option String × MemStore :=
  storeUpdate s id now fun op =>
    { op with status := .complete, ttfb := ttfb, timedOut := timedOut
              artefacts := artefacts }

/-- `MemoryStore.MarkFailed`. -/
def markFailed (s : MemStore) (id : String) (now : Nat) (err : String) :
    Option String × MemStore :=
  storeUpdate s id now fun op => { op with status := .failed, errMsg := err }

/-! ## Spec-side characterisations and concrete fixtures -/

/-- The pages among a buffered event list, in buffer order. -/
def pagesOf (buf : List CollEvent) : List Page :=
  buf.filterMap fun d => match d with | .page p => some p | .entry _ => none

/-- The completed entries among a buffered event list, in buffer order. -/
def entriesOf (buf : List CollEvent) : List CompletedEntry :=
  buf.filterMap fun d => match d with | .page _ => none | .entry e => some e

/-- Canonical-stage comparison between screenshots. -/
def shotLE (a b : Screenshot) : Prop :=
  lifecycleOrder a.stage ≤ lifecycleOrder b.stage

/-- A resource timing in which only the SSL phase occurred (0ms to 5ms). -/
def sslOnlyTiming : ResourceTiming :=
  { dnsStart := -1, dnsEnd := -1, connectStart := -1, connectEnd := -1
    sslStart := 0, sslEnd := 5, sendStart := -1, sendEnd := -1
    receiveHeadersStart := -1, receiveHeadersEnd := -1 }

/-- A pending request fixture. -/
def sampleRequest : PendingRequest :=
  { requestID := "r1", method := "GET", url := "https://example.com/"
    headers := [], wallTime := 0, resourceType := "Document"
    pageRef := "page_r1" }

/-- A response event fixture for the same identifier. -/
def sampleResponse : ResponseEvent :=
  { requestID := "r1", status := 200, statusText := "OK", protocol := "h2"
    headers := [], mimeType := "text/html", timing := none }

/-- A request store holding exactly `sampleRequest`. -/
def sampleStore : RequestStore :=
  addRequest (fun _ => none) sampleRequest

/-- A page fixture. -/
def samplePage : Page :=
  { id := "page_r1", startedDateTime := 0, title := "https://example.com/" }

/-- A buffered event list holding one page and one entry. -/
def sampleBuffer : List CollEvent :=
  [CollEvent.page samplePage,
   CollEvent.entry { request := sampleRequest, response := sampleResponse }]

/-- Options fixture: all defaults except the URL. -/
def sampleOpts : Options :=
  { url := "https://example.com", navigationTimeout := 0, totalTimeout := 0
    browserVersion := "", screenshots := false
    viewportWidth := 0, viewportHeight := 0 }

/-- C1 counterexample environment: the navigation deadline expired, yet the
network-idle signal later fired before the total deadline. -/
def navTimeoutEnv : CaptureEnv :=
  { navResult := some GoError.deadlineExceeded, doneFirst := true
    buffer := [], shotResults := [], fallbackShot := none }

/-- Environment in which the surrounding context was cancelled during
navigation. -/
def canceledEnv : CaptureEnv :=
  { navResult := some GoError.canceled, doneFirst := false
    buffer := sampleBuffer, shotResults := [], fallbackShot := none }

/-- Environment in which navigation failed with a DNS error. -/
def dnsFailEnv : CaptureEnv :=
  { navResult := some (GoError.other "dns failure"), doneFirst := false
    buffer := [], shotResults := [], fallbackShot := none }

/-- Environment of an untroubled run: navigation succeeded and network-idle
fired before the deadline. -/
def idleEnv : CaptureEnv :=
  { navResult := none, doneFirst := true
    buffer := sampleBuffer, shotResults := [], fallbackShot := none }

/-- An operation fixture still in its initial `pending` state. -/
def pendingOp : Operation :=
  { id := "op1", status := .pending, url := "https://example.com"
    createdAt := 0, updatedAt := 0, ttfb := 0, timedOut := false
    artefacts := [], errMsg := "" }

/-- A store holding exactly `pendingOp`. -/
def pendingOpStore : MemStore :=
  fun id => if id = "op1" then some pendingOp else none

/-- Screenshot fixtures, one per lifecycle stage. -/
def shotLoad : Screenshot :=
  { stage := "load", capturedAt := 1, png := [0] }

def shotFCP : Screenshot :=
  { stage := "firstContentfulPaint", capturedAt := 2, png := [1] }

def shotIdle : Screenshot :=
  { stage := "networkIdle", capturedAt := 3, png := [2] }

/-! ## Helper lemmas -/

theorem foldStep_pos_eq_nonneg :
    (fun (total v : Rat) => if 0 < v then total + v else total) =
      fun (total v : Rat) => if 0 ≤ v then total + v else total := by
  funext total v
  rcases lt_trichotomy v 0 with h | h | h
  · rw [if_neg (not_lt.mpr h.le), if_neg (not_le.mpr h)]
  · subst h
    simp
  · rw [if_pos h, if_pos h.le]

theorem totalTime_eq_nonnegSum (t : Timings) :
    totalTime t = nonnegSum [t.blocked, t.dns, t.connect, t.send, t.wait, t.receive] := by
  unfold totalTime nonnegSum
  rw [foldStep_pos_eq_nonneg]

/-! ## Claim theorems -/

/-- C2, counterexample: for a timing in which only the SSL phase occurred
(0ms to 5ms), the entry total computed by the code is 0 — `totalTime` omits
the SSL phase from its sum — while the claimed "sum of exactly the
non-negative phase durations" is 5. -/
theorem totalTime_omits_ssl_cex :
    totalTime (buildTimings (some sslOnlyTiming)) = 0 ∧
    specTotalTime (buildTimings (some sslOnlyTiming)) = 5 ∧
    (buildTimings (some sslOnlyTiming)).ssl = 5 := by
  norm_num [totalTime, specTotalTime, nonnegSum, buildTimings, phaseOrBlocked,
    sslOnlyTiming, List.foldl]

/-- C2, amended: each timing phase duration (DNS, connect, SSL, send, and the
wait phase computed as receiveHeadersEnd minus sendEnd) equals the absent
sentinel -1 whenever either raw endpoint is negative and equals end minus
start otherwise; and the entry's total time equals the sum of exactly the
non-negative durations among the blocked, DNS, connect, send, wait and
receive phases — the SSL phase is excluded from the total. -/
theorem buildTimings_phases_and_total (t : ResourceTiming) (s e : Rat) :
    (buildTimings (some t)).dns = phaseOrBlocked t.dnsStart t.dnsEnd ∧
    (buildTimings (some t)).connect = phaseOrBlocked t.connectStart t.connectEnd ∧
    (buildTimings (some t)).ssl = phaseOrBlocked t.sslStart t.sslEnd ∧
    (buildTimings (some t)).send = phaseOrBlocked t.sendStart t.sendEnd ∧
    ((s < 0 ∨ e < 0) → phaseOrBlocked s e = -1) ∧
    (0 ≤ s → 0 ≤ e → phaseOrBlocked s e = e - s) ∧
    ((t.sendEnd < 0 ∨ t.receiveHeadersEnd < 0) → (buildTimings (some t)).wait = -1) ∧
    (0 ≤ t.sendEnd → 0 ≤ t.receiveHeadersEnd →
      (buildTimings (some t)).wait = t.receiveHeadersEnd - t.sendEnd) ∧
    totalTime (buildTimings (some t)) =
      nonnegSum [(buildTimings (some t)).blocked, (buildTimings (some t)).dns,
        (buildTimings (some t)).connect, (buildTimings (some t)).send,
        (buildTimings (some t)).wait, (buildTimings (some t)).receive] := by
  refine ⟨rfl, rfl, rfl, rfl, ?_, ?_, ?_, ?_, totalTime_eq_nonnegSum _⟩
  · intro h
    rw [phaseOrBlocked, if_pos h]
  · intro hs he
    rw [phaseOrBlocked, if_neg]
    push_neg
    exact ⟨hs, he⟩
  · intro h
    show (if 0 ≤ t.sendEnd ∧ 0 ≤ t.receiveHeadersEnd
          then t.receiveHeadersEnd - t.sendEnd else -1) = -1
    rcases h with h | h
    · exact if_neg fun hc => absurd hc.1 (not_le.mpr h)
    · exact if_neg fun hc => absurd hc.2 (not_le.mpr h)
  · intro hs he
    show (if 0 ≤ t.sendEnd ∧ 0 ≤ t.receiveHeadersEnd
          then t.receiveHeadersEnd - t.sendEnd else -1) = _
    exact if_pos ⟨hs, he⟩

/-- Witness for C2's amended theorem at concrete inputs. -/
theorem buildTimings_phases_and_total_witness :
    phaseOrBlocked (-1 : Rat) 5 = -1 ∧ phaseOrBlocked (2 : Rat) 5 = 5 - 2 ∧
    (buildTimings (some sslOnlyTiming)).wait = -1 := by
  obtain ⟨-, -, -, -, h5, -, h7, -, -⟩ :=
    buildTimings_phases_and_total sslOnlyTiming (-1) 5
  obtain ⟨-, -, -, -, -, h6, -, -, -⟩ :=
    buildTimings_phases_and_total sslOnlyTiming 2 5
  exact ⟨h5 (Or.inl (by norm_num)), h6 (by norm_num) (by norm_num),
    h7 (Or.inl (by decide))⟩

/-- C8, counterexample: a response header map whose only Location-style header
is spelled "LOCATION" yields an empty redirect URL — the lookup matches only
the exact spellings "Location" and "location", not every casing. -/
theorem redirectURL_upper_casing_cex :
    redirectURL [("LOCATION", HeaderVal.str "https://example.com/next")] = "" ∧
    redirectURL [("LOCATION", HeaderVal.str "https://example.com/next")] ≠
      "https://example.com/next" := by
  decide

/-- C8, amended: the redirect target is found by an exact lookup of the two
spellings "Location" and "location" only: when no header has either exact
name the redirect URL is the empty string (any other casing, such as
"LOCATION", is not matched), and when such a header is present — taking the
first in traversal order — its printed value is returned. -/
theorem redirectURL_exact_spellings (hs : Headers) (k : String) (v : HeaderVal)
    (hs1 hs2 : List (String × HeaderVal)) :
    ((∀ p ∈ hs, p.1 ≠ "Location" ∧ p.1 ≠ "location") → redirectURL hs = "") ∧
    (hs = hs1 ++ (k, v) :: hs2 →
      (k = "Location" ∨ k = "location") →
      (∀ p ∈ hs1, p.1 ≠ "Location" ∧ p.1 ≠ "location") →
      redirectURL hs = sprintVal v) := by
  constructor
  · intro h
    rw [redirectURL, List.find?_eq_none.mpr]
    intro p hp
    simp only [decide_eq_true_eq]
    rcases h p hp with ⟨h1, h2⟩
    rintro (hc | hc)
    · exact h1 hc
    · exact h2 hc
  · rintro rfl hk hfirst
    rw [redirectURL]
    induction hs1 with
    | nil =>
        rw [List.nil_append, List.find?_cons_of_pos]
        simp only [decide_eq_true_eq]
        exact hk
    | cons q qs ih =>
        rw [List.cons_append, List.find?_cons_of_neg]
        · exact ih fun p hp => hfirst p (List.mem_cons_of_mem q hp)
        · simp only [decide_eq_true_eq]
          rcases hfirst q (List.mem_cons_self q qs) with ⟨h1, h2⟩
          rintro (hc | hc)
          · exact h1 hc
          · exact h2 hc

/-- Witness for C8's amended theorem at concrete header maps. -/
theorem redirectURL_exact_spellings_witness :
    redirectURL [("Content-Type", HeaderVal.str "text/html"),
      ("location", HeaderVal.str "https://example.com/next")] =
      sprintVal (HeaderVal.str "https://example.com/next") ∧
    redirectURL [("Content-Type", HeaderVal.str "text/html")] = "" := by
  constructor
  · exact (redirectURL_exact_spellings _ "location"
      (HeaderVal.str "https://example.com/next")
      [("Content-Type", HeaderVal.str "text/html")] []).2 rfl (Or.inr rfl)
      (by decide)
  · exact (redirectURL_exact_spellings
      [("Content-Type", HeaderVal.str "text/html")] "" (HeaderVal.str "")
      [] []).1 (by decide)

/-- C3: a response correlates with a given request identifier at most once
between registrations of that identifier. When the identifier is pending,
`correlate` returns the paired entry, removes the pending request, leaves
every other identifier untouched, and a repeated `correlate` for the same
identifier then finds no match and changes nothing. When the identifier is
unseen or already consumed, `correlate` returns no match and leaves the
pending map unchanged. Registering again via `addRequest` re-enables
correlation. -/
theorem correlate_at_most_once (s : RequestStore) (ev : ResponseEvent)
    (req : PendingRequest) :
    (s ev.requestID = some req →
      (correlate s ev).1 = some { request := req, response := ev } ∧
      (correlate s ev).2 ev.requestID = none ∧
      (∀ k, k ≠ ev.requestID → (correlate s ev).2 k = s k) ∧
      (correlate (correlate s ev).2 ev).1 = none ∧
      (correlate (correlate s ev).2 ev).2 = (correlate s ev).2) ∧
    (s ev.requestID = none →
      (correlate s ev).1 = none ∧ (correlate s ev).2 = s) ∧
    (∀ ev2 : ResponseEvent, ev2.requestID = req.requestID →
      (correlate (addRequest s req) ev2).1 =
        some { request := req, response := ev2 }) := by
  refine ⟨?_, ?_, ?_⟩
  · intro h
    have hu : Function.update s ev.requestID none ev.requestID = none :=
      Function.update_same _ _ _
    refine ⟨?_, ?_, ?_, ?_, ?_⟩
    · simp [correlate, h]
    · simp [correlate, h, hu]
    · intro k hk
      simp only [correlate, h]
      exact Function.update_noteq hk none s
    · simp [correlate, h, hu]
    · simp [correlate, h, hu]
  · intro h
    simp [correlate, h]
  · intro ev2 h2
    have hu : addRequest s req ev2.requestID = some req := by
      rw [addRequest, h2]
      exact Function.update_same _ _ _
    simp [correlate, hu]

/-- Witness for C3 at a concrete store holding one pending request. -/
theorem correlate_at_most_once_witness :
    (correlate sampleStore sampleResponse).1 =
      some { request := sampleRequest, response := sampleResponse } ∧
    (correlate (correlate sampleStore sampleResponse).2 sampleResponse).1 =
      none := by
  obtain ⟨h1, -, -⟩ :=
    correlate_at_most_once sampleStore sampleResponse sampleRequest
  obtain ⟨ha, -, -, hd, -⟩ := h1 rfl
  exact ⟨ha, hd⟩

theorem foldl_accumulate (buf : List CollEvent) (ps : List Page)
    (es : List CompletedEntry) :
    buf.foldl accumulate (ps, es) = (ps ++ pagesOf buf, es ++ entriesOf buf) := by
  induction buf generalizing ps es with
  | nil => simp [pagesOf, entriesOf]
  | cons d rest ih =>
      cases d with
      | page p => simp [accumulate, pagesOf, entriesOf, ih]
      | entry e => simp [accumulate, pagesOf, entriesOf, ih]

/-- C4: `wait` returns every buffered event (pages and entries, in buffer
order) in both outcomes of the race; `timedOut` is false exactly when the
completion signal fired before the deadline; and `markDone` is idempotent —
from any state in which the guard flag agrees with the channel state, closing
succeeds without a double-close panic and lands in the closed state, which
further close calls leave unchanged. -/
theorem collector_wait_and_markDone (doneFirst : Bool) (buf : List CollEvent)
    (o : OnceCloser) (hinv : o.done = o.chClosed) :
    collectorWait doneFirst buf = (pagesOf buf, entriesOf buf, !doneFirst) ∧
    ((collectorWait doneFirst buf).2.2 = false ↔ doneFirst = true) ∧
    OnceCloser.close o = .ok { done := true, chClosed := true } ∧
    OnceCloser.close { done := true, chClosed := true } =
      .ok { done := true, chClosed := true } := by
  refine ⟨?_, ?_, ?_, rfl⟩
  · simp [collectorWait, drainAll, foldl_accumulate]
  · cases doneFirst <;> simp [collectorWait]
  · obtain ⟨d, c⟩ := o
    cases d with
    | true => cases c with
      | true => rfl
      | false => exact absurd hinv (by decide)
    | false => cases c with
      | true => exact absurd hinv (by decide)
      | false => rfl

/-- Witness for C4 on a concrete buffer and a fresh collector. -/
theorem collector_wait_and_markDone_witness :
    collectorWait false sampleBuffer =
      (pagesOf sampleBuffer, entriesOf sampleBuffer, true) ∧
    OnceCloser.close newOnceCloser = .ok { done := true, chClosed := true } := by
  obtain ⟨h1, -, h3, -⟩ :=
    collector_wait_and_markDone false sampleBuffer newOnceCloser rfl
  exact ⟨h1, h3⟩

theorem perm_insertShot (s : Screenshot) (l : List Screenshot) :
    (insertShot s l).Perm (s :: l) := by
  induction l with
  | nil => exact List.Perm.refl _
  | cons t ts ih =>
      rw [insertShot]
      by_cases hle : lifecycleOrder s.stage ≤ lifecycleOrder t.stage
      · rw [if_pos hle]
      · rw [if_neg hle]
        exact (ih.cons t).trans (List.Perm.swap s t ts)

theorem sorted_insertShot (s : Screenshot) (l : List Screenshot)
    (h : List.Sorted shotLE l) : List.Sorted shotLE (insertShot s l) := by
  induction l with
  | nil => simp [insertShot, List.sorted_singleton]
  | cons t ts ih =>
      rw [insertShot]
      rcases List.sorted_cons.mp h with ⟨ht, hts⟩
      by_cases hle : lifecycleOrder s.stage ≤ lifecycleOrder t.stage
      · rw [if_pos hle]
        refine List.sorted_cons.mpr ⟨?_, h⟩
        intro b hb
        rcases List.mem_cons.mp hb with rfl | hb
        · exact hle
        · exact le_trans hle (ht b hb)
      · rw [if_neg hle]
        refine List.sorted_cons.mpr ⟨?_, ih hts⟩
        intro b hb
        rcases List.mem_cons.mp ((perm_insertShot s ts).mem_iff.mp hb) with
          rfl | hb
        · exact le_of_lt (not_le.mp hle)
        · exact ht b hb

theorem sorted_sortShots (l : List Screenshot) :
    List.Sorted shotLE (sortShots l) := by
  induction l with
  | nil => exact List.sorted_nil
  | cons s ts ih => exact sorted_insertShot s _ ih

theorem perm_sortShots (l : List Screenshot) : (sortShots l).Perm l := by
  induction l with
  | nil => exact List.Perm.refl _
  | cons s ts ih => exact (perm_insertShot s _).trans (ih.cons s)

/-- C6: the screenshot scheduler's `wait` always returns a list sorted
ascending by canonical lifecycle stage order, holding exactly the captured
screenshots, regardless of the completion order in which they were appended
(permuted completion orders give permuted — multiset-equal — outputs, both
sorted). -/
theorem scWait_sorted_canonical (results other : List Screenshot)
    (hperm : results.Perm other) :
    List.Sorted shotLE (scWait results) ∧
    (scWait results).Perm results ∧
    (scWait other).Perm (scWait results) := by
  refine ⟨sorted_sortShots results, perm_sortShots results, ?_⟩
  exact (perm_sortShots other).trans
    (hperm.symm.trans (perm_sortShots results).symm)

/-- Witness for C6 on screenshots arriving in reverse canonical order. -/
theorem scWait_sorted_canonical_witness :
    List.Sorted shotLE (scWait [shotIdle, shotFCP, shotLoad]) ∧
    (scWait [shotIdle, shotFCP, shotLoad]).Perm [shotIdle, shotFCP, shotLoad] := by
  obtain ⟨h1, h2, -⟩ := scWait_sorted_canonical [shotIdle, shotFCP, shotLoad]
    [shotLoad, shotFCP, shotIdle] (by decide)
  exact ⟨h1, h2⟩

/-- C1 counterexample: a run whose navigation deadline expired but in which
the network-idle completion signal then fired before the total deadline still
yields `timed_out = true` — `Capture` ors the navigation cutoff into the
flag, so `timed_out` is not equivalent to "cut off by the total deadline
rather than reaching network-idle". -/
theorem capture_navTimeout_cex :
    navTimeoutEnv.doneFirst = true ∧
    captureTimedOutFlag sampleOpts navTimeoutEnv = some true := ⟨rfl, rfl⟩

/-- C1 (amended): the result's `timed_out` flag is true iff the navigation
step was cut off (its error was a deadline expiry or cancellation) or the
wait for network-idle lost the race against the total deadline; in
particular, a run in which navigation succeeds and the network-idle signal
fires before the total deadline yields `timed_out = false`. -/
theorem capture_timedOut_iff_cutoff (opts : Options) (env : CaptureEnv)
    (hurl : opts.url ≠ "")
    (hnav : ∀ e, env.navResult = some e → isTimeoutErr e = true) :
    captureTimedOutFlag opts env =
      some (env.navResult.isSome || !env.doneFirst) ∧
    (env.navResult = none → env.doneFirst = true →
      captureTimedOutFlag opts env = some false) := by
  constructor
  · cases henv : env.navResult with
    | none =>
        simp [captureTimedOutFlag, Capture, if_neg hurl, henv, collectorWait]
    | some e =>
        have ht := hnav e henv
        simp [captureTimedOutFlag, Capture, if_neg hurl, henv, ht,
          collectorWait]
  · intro h1 h2
    simp [captureTimedOutFlag, Capture, if_neg hurl, h1, h2, collectorWait]

/-- Witness for C1's amended theorem: an untroubled run is not timed out. -/
theorem capture_timedOut_iff_cutoff_witness :
    captureTimedOutFlag sampleOpts idleEnv = some false := by
  have h := capture_timedOut_iff_cutoff sampleOpts idleEnv (by decide)
    (by intro e he; rw [show idleEnv.navResult = none from rfl] at he
        exact Option.noConfusion he)
  exact h.2 rfl rfl

/-- C10: a context cancellation during navigation is classified by
`isTimeoutError` like a deadline expiry, so `Capture` returns no error but a
result with `timed_out = true` whose archive holds everything collected; only
a non-timeout, non-cancellation navigation failure aborts with an error. -/
theorem capture_cancel_graceful (opts : Options) (env env2 : CaptureEnv)
    (m : String) (hurl : opts.url ≠ "")
    (hc : env.navResult = some GoError.canceled)
    (hm : env2.navResult = some (GoError.other m)) :
    captureTimedOutFlag opts env = some true ∧
    captureHARDoc opts env = some (assembleHAR (pagesOf env.buffer)
      (entriesOf env.buffer)
      (if opts.browserVersion = "" then "unknown" else opts.browserVersion)) ∧
    Capture opts env2 = .error ("capture: navigation failed: " ++ m) := by
  refine ⟨?_, ?_, ?_⟩
  · simp [captureTimedOutFlag, Capture, if_neg hurl, hc, isTimeoutErr]
  · simp [captureHARDoc, Capture, if_neg hurl, hc, isTimeoutErr,
      collectorWait, drainAll, foldl_accumulate]
  · simp [Capture, if_neg hurl, hm, isTimeoutErr, errMessage]

/-- Witness for C10 at concrete cancelled and DNS-failed environments. -/
theorem capture_cancel_graceful_witness :
    captureTimedOutFlag sampleOpts canceledEnv = some true ∧
    Capture sampleOpts dnsFailEnv =
      .error ("capture: navigation failed: " ++ "dns failure") := by
  obtain ⟨h1, -, h3⟩ := capture_cancel_graceful sampleOpts canceledEnv
    dnsFailEnv "dns failure" (by decide) rfl rfl
  exact ⟨h1, h3⟩

/-- C5 counterexample: the store's mark operations do not inspect the current
status: `MarkComplete` moves a pending operation straight to complete,
skipping running, and a subsequent `MarkRunning` moves the supposedly
terminal complete operation back to running. -/
theorem store_transitions_unchecked_cex :
    (pendingOpStore "op1").map Operation.status = some Status.pending ∧
    (markComplete pendingOpStore "op1" 5 0 false []).1 = none ∧
    ((markComplete pendingOpStore "op1" 5 0 false []).2 "op1").map
      Operation.status = some Status.complete ∧
    ((markRunning (markComplete pendingOpStore "op1" 5 0 false []).2
      "op1" 6).2 "op1").map Operation.status = some Status.running := by
  refine ⟨rfl, rfl, rfl, rfl⟩

/-- C5 (amended): each mark operation sets the status of a known operation
unconditionally to its target state — running, complete or failed — whatever
the current status; the forward-only lifecycle `pending → running →
{complete | failed}` is a discipline of the worker's call order, not enforced
by the store. -/
theorem store_marks_set_status_unconditionally (s : MemStore) (id : String)
    (now : Nat) (t : Rat) (tb : Bool) (a : List Artefact) (m : String)
    (op : Operation) (h : s id = some op) :
    ((markRunning s id now).2 id).map Operation.status =
      some Status.running ∧
    ((markComplete s id now t tb a).2 id).map Operation.status =
      some Status.complete ∧
    ((markFailed s id now m).2 id).map Operation.status =
      some Status.failed := by
  refine ⟨?_, ?_, ?_⟩ <;>
    simp [markRunning, markComplete, markFailed, storeUpdate, h,
      Function.update_same]

/-- Witness for C5's amended theorem on a concrete pending operation. -/
theorem store_marks_set_status_unconditionally_witness :
    ((markRunning pendingOpStore "op1" 6).2 "op1").map Operation.status =
      some Status.running := by
  exact (store_marks_set_status_unconditionally pendingOpStore "op1" 6 0
    false [] "" pendingOp rfl).1

/-- C7: against an unknown identifier, `Get` and each mark operation fail
with a "not found" error and return the store exactly as it was — no
operation mutated, no update timestamp refreshed; against a known
identifier, each mark applies its transition, refreshes the update timestamp
to the current time, and leaves every other identifier untouched. -/
theorem store_not_found_and_refresh (s : MemStore) (id : String) (now : Nat)
    (t : Rat) (tb : Bool) (a : List Artefact) (m : String) :
    (s id = none →
      storeGet s id = .error ("operation \"" ++ id ++ "\" not found") ∧
      markRunning s id now =
        (some ("operation \"" ++ id ++ "\" not found"), s) ∧
      markComplete s id now t tb a =
        (some ("operation \"" ++ id ++ "\" not found"), s) ∧
      markFailed s id now m =
        (some ("operation \"" ++ id ++ "\" not found"), s)) ∧
    (∀ op, s id = some op →
      storeGet s id = .ok op ∧
      markRunning s id now = (none, Function.update s id
        (some { op with status := .running, updatedAt := now })) ∧
      markComplete s id now t tb a = (none, Function.update s id
        (some { op with
                status := .complete, ttfb := t, timedOut := tb
                artefacts := a, updatedAt := now })) ∧
      markFailed s id now m = (none, Function.update s id
        (some { op with
                status := .failed, errMsg := m, updatedAt := now })) ∧
      (∀ k, k ≠ id → (markRunning s id now).2 k = s k)) := by
  constructor
  · intro h
    refine ⟨?_, ?_, ?_, ?_⟩ <;>
      simp [storeGet, markRunning, markComplete, markFailed, storeUpdate, h]
  · intro op h
    refine ⟨?_, ?_, ?_, ?_, ?_⟩
    · simp [storeGet, h]
    · simp [markRunning, storeUpdate, h]
    · simp [markComplete, storeUpdate, h]
    · simp [markFailed, storeUpdate, h]
    · intro k hk
      simp only [markRunning, storeUpdate, h]
      exact Function.update_noteq hk _ s

/-- Witness for C7 against one unknown and one known identifier. -/
theorem store_not_found_and_refresh_witness :
    storeGet pendingOpStore "nope" =
      .error ("operation \"" ++ "nope" ++ "\" not found") ∧
    (markRunning pendingOpStore "nope" 7).2 = pendingOpStore ∧
    ((markRunning pendingOpStore "op1" 7).2 "op1").map Operation.updatedAt =
      some 7 := by
  obtain ⟨hnone, -⟩ :=
    store_not_found_and_refresh pendingOpStore "nope" 7 0 false [] ""
  obtain ⟨hg, hr, -, -⟩ := hnone rfl
  obtain ⟨-, hsome⟩ :=
    store_not_found_and_refresh pendingOpStore "op1" 7 0 false [] ""
  obtain ⟨-, hr2, -, -, -⟩ := hsome pendingOp rfl
  refine ⟨hg, ?_, ?_⟩
  · rw [hr]
  · rw [hr2]
    simp [Function.update_same]

/-- C9: when either viewport dimension is zero, both are reset to the
1920x1080 defaults — a non-zero dimension supplied together with a zero one
is discarded; only a pair of non-zero dimensions is preserved. -/
theorem viewport_zero_resets_both (w h : Int) (hw : w ≠ 0) (hh : h ≠ 0) :
    normalizeViewport w 0 = (1920, 1080) ∧
    normalizeViewport 0 h = (1920, 1080) ∧
    normalizeViewport w h = (w, h) := by
  refine ⟨?_, ?_, ?_⟩ <;> simp [normalizeViewport, hw, hh]

/-- Witness for C9 at a concrete 800x0 viewport request. -/
theorem viewport_zero_resets_both_witness :
    normalizeViewport 800 0 = (1920, 1080) ∧
    normalizeViewport 800 600 = (800, 600) := by
  obtain ⟨h1, -, h3⟩ := viewport_zero_resets_both 800 600 (by decide)
    (by decide)
  exact ⟨h1, h3⟩

end HarCapture
